import Mathlib

/-!
Shallow embedding of the combat core of `pf2e_grid_combat.py` (namespace `PF2E`)
and of the duplicated module `src/entities/base_character.py` (namespace `PF2E.BC`).

Conventions of the embedding:
* Python `int` is `Int`; counts and dice are `Nat`.
* `random.randint(1, n)` calls are modelled by an injected stream `rng : Nat → Nat`;
  the i-th `randint` of a pipeline returns `rng i % n + 1`, which is always in
  `[1, n]` and can realise any sequence of rolls.
* Log messages are abstracted to tags (`LogMsg`): the claims only speak of a
  message being appended, never of its text.  Effects keep their kind, the
  optional damage number and the optional hit tag, as in the `Effect` record.
* Methods that mutate `self`/`target` are modelled as functions returning the
  updated characters; the caller of a Python method passes the list of the
  *other* characters in the game (`game.get_all_characters()` minus `self`,
  which Python filters out by object identity).
-/

namespace PF2E

/-- Grid coordinate with value equality and Chebyshev distance
(`GridPosition` in the source). -/
structure GridPosition where
  x : Int
  y : Int
deriving DecidableEq, Repr

/-- `GridPosition.distance_to`: Chebyshev distance `max(|dx|, |dy|)`. -/
def GridPosition.distance_to (p q : GridPosition) : Nat :=
  max (p.x - q.x).natAbs (p.y - q.y).natAbs

/-- `GRID_COLS` of `pf2e_grid_combat.py`. -/
def GRID_COLS : Int := 16

/-- `GRID_ROWS` of `pf2e_grid_combat.py`. -/
def GRID_ROWS : Int := 8

/-- Archetype tag, standing for the Python subclass of `Character`
(`isinstance` checks become tag comparisons). -/
inductive Archetype
  | fighter
  | rogue
  | wizard
  | cleric
  | enemy
deriving DecidableEq, Repr

/-- The i-th `random.randint(1, n)` of a pipeline, driven by the stream `rng`. -/
def randint (rng : Nat → Nat) (i : Nat) (n : Nat) : Nat :=
  rng i % n + 1

/-- `Character` of `pf2e_grid_combat.py`: stat block, resources, transient
combat flags and the condition ledger.  `shield_raised` is the `Fighter`
subclass field, `shield_up` the `Wizard` subclass field and `damage_dice`
the `Enemy` subclass field (each defaulted and unused for the other
archetypes). -/
structure Character where
  name : String
  max_hp : Int
  hp : Int
  base_ac : Int
  attack_bonus : Int
  position : GridPosition
  alive : Bool
  speed : Int
  potions : Nat
  bonus_damage : Int
  off_guard : Bool
  is_enemy : Bool
  conditions : List (String × Int)
  sanctuary_active : Bool
  archetype : Archetype
  shield_raised : Bool
  shield_up : Bool
  damage_dice : Nat × Nat
deriving DecidableEq, Repr

/-- The `hp` property setter: clamp to `[0, max_hp]` and refresh `_alive`. -/
def Character.setHp (c : Character) (value : Int) : Character :=
  let newHp := max 0 (min value c.max_hp)
  { c with hp := newHp, alive := decide (0 < newHp) }

/-- The `max_hp` property setter: floor at 1, then re-clamp `hp` from above. -/
def Character.setMaxHp (c : Character) (value : Int) : Character :=
  let m := max 1 value
  { c with max_hp := m, hp := min c.hp m }

/-- The `speed` property setter: minimum speed of 5 feet. -/
def Character.setSpeed (c : Character) (value : Int) : Character :=
  { c with speed := max 5 value }

/-- `Character.is_alive`: `hp > 0`, computed fresh. -/
def Character.is_alive (c : Character) : Bool :=
  decide (0 < c.hp)

/-- `Character.get_ac`, including the `Fighter` override that adds 2 while the
shield is raised (the Wizard Shield spell instead edits `base_ac` directly). -/
def Character.get_ac (c : Character) : Int :=
  let base := if c.off_guard then c.base_ac - 2 else c.base_ac
  if c.archetype = Archetype.fighter ∧ c.shield_raised then base + 2 else base

/-- `Character.can_move_to`.  `others` is `game.get_all_characters()` without
`self` (the source skips `self` by identity).  Occupancy only counts living
characters in this module. -/
def Character.can_move_to (c : Character) (new_pos : GridPosition)
    (others : List Character) : Bool :=
  if ¬ (0 ≤ new_pos.x ∧ new_pos.x < GRID_COLS ∧ 0 ≤ new_pos.y ∧ new_pos.y < GRID_ROWS) then
    false
  else if others.any (fun ch => ch.position = new_pos ∧ ch.is_alive) then
    false
  else
    decide ((c.position.distance_to new_pos : Int) * 5 ≤ c.speed)

/-- `Character.move_to`: mutate the position iff `can_move_to` holds; returns
the updated character and the success flag. -/
def Character.move_to (c : Character) (new_pos : GridPosition)
    (others : List Character) : Character × Bool :=
  if c.can_move_to new_pos others then
    ({ c with position := new_pos }, true)
  else
    (c, false)

/-- Per-ally geometric test of `Character.is_flanking`, with the source's
`if`/`elif` chain: same row with the target strictly between, else same column
with the target strictly between, else the diagonal case (`|dx| == |dy| == 2`
between attacker and ally, target at their floor-division midpoint). -/
def flankGeom (my t a : GridPosition) : Bool :=
  if my.y = t.y ∧ t.y = a.y then
    decide ((my.x < t.x ∧ t.x < a.x) ∨ (a.x < t.x ∧ t.x < my.x))
  else if my.x = t.x ∧ t.x = a.x then
    decide ((my.y < t.y ∧ t.y < a.y) ∨ (a.y < t.y ∧ t.y < my.y))
  else if (my.x - a.x).natAbs = 2 ∧ (my.y - a.y).natAbs = 2 then
    decide (t.x = Int.fdiv (my.x + a.x) 2 ∧ t.y = Int.fdiv (my.y + a.y) 2)
  else
    false

/-- `Character.is_flanking`: some living same-side ally (all characters except
`self`, filtered to the attacker's side) adjacent to the target and passing the
geometric test. -/
def Character.is_flanking (c : Character) (target : Character)
    (others : List Character) : Bool :=
  if ¬ target.is_alive then
    false
  else
    let allies := others.filter (fun ch => ch.is_alive ∧ ch.is_enemy = c.is_enemy)
    allies.any (fun ally =>
      ally.position.distance_to target.position ≤ 1 ∧
      flankGeom c.position target.position ally.position)

/-- Log messages, abstracted to tags (the claims only mention that a message is
appended on an event, never its text). -/
inductive LogMsg
  | notEnoughActions
  | outOfRange
  | willSavePrompt
  | willSaveRoll
  | cannotAttack
  | sanctuaryFades
  | overcomesSanctuary
  | sanctuaryBroken
  | rollToHit
  | criticalMiss
  | criticalHit
  | hitMsg
  | missMsg
  | damageLine
  | sneakAttackMsg
  | damageTotal
  | takesDamage
  | hasFallen
  | flankedMsg
  | waveComplete
deriving DecidableEq, Repr

/-- Hit tag carried by an effect record (`hit_type` in the source). -/
inductive HitType
  | hit
  | miss
  | critical
deriving DecidableEq, Repr

/-- Effect kind (`effect_type` in the source), combat-relevant kinds only. -/
inductive EffectKind
  | missFx
  | criticalFx
  | strikeFx
  | sneakFx
deriving DecidableEq, Repr

/-- The `Effect` animation-trigger record, reduced to the data the combat core
writes: kind, optional damage number, optional hit tag (positions and colors
are presentation data determined by the two characters). -/
structure Effect where
  kind : EffectKind
  damage : Option Int
  hit_type : Option HitType
deriving DecidableEq, Repr

/-- The miss effect the attack pipeline emits
(`Effect(..., effect_type="miss", hit_type="miss")`). -/
def missEffect : Effect :=
  { kind := EffectKind.missFx, damage := none, hit_type := some HitType.miss }

/-- `Character.take_damage`: write `max(0, hp - damage)` through the clamping
`hp` setter, log the damage line and, if the character drops, the fallen
line. -/
def Character.take_damage (c : Character) (damage : Int) : Character × List LogMsg :=
  let c1 := c.setHp (max 0 (c.hp - damage))
  (c1, [LogMsg.takesDamage] ++ (if c1.alive then [] else [LogMsg.hasFallen]))

/-- `Character.remove_condition`: drop the ledger entry; removing "Sanctuary"
also clears `sanctuary_active`. -/
def Character.remove_condition (c : Character) (n : String) : Character :=
  { c with
    conditions := c.conditions.filter (fun p => p.1 ≠ n),
    sanctuary_active := if n = "Sanctuary" then false else c.sanctuary_active }

/-- `Character.add_condition`; adding "Sanctuary" sets `sanctuary_active`. -/
def Character.add_condition (c : Character) (n : String) (duration : Int) : Character :=
  { c with
    conditions := (c.conditions.filter (fun p => p.1 ≠ n)) ++ [(n, duration)],
    sanctuary_active := if n = "Sanctuary" then true else c.sanctuary_active }

/-- Result of one `Character.attack` call: the `(used, hit)` return value, the
updated target, the appended log messages and effects, and whether
`game.check_wave_complete()` was invoked during the call. -/
structure AttackOutcome where
  used : Nat
  hit : Bool
  target : Character
  msgs : List LogMsg
  effects : List Effect
  waveCheck : Bool
deriving DecidableEq, Repr

/-- Tail of the hit branches of `Character.attack`: Rogue-only sneak-attack
d6 when the flag is set, add `bonus_damage` (call argument) and the
attacker's accumulated `bonus_damage`, apply the damage, clear the target's
`off_guard`, and run the wave-completion check if the target dropped.
`k` is the index of the next unused `randint` draw. -/
def Character.applyHit (c : Character) (target : Character) (diceSum : Nat)
    (bonus_damage : Int) (sneak_attack : Bool) (rng : Nat → Nat) (k : Nat)
    (msgs : List LogMsg) (fx : List Effect) : AttackOutcome :=
  let sneak := sneak_attack && decide (c.archetype = Archetype.rogue)
  let sa : Int := if sneak then (randint rng k 6 : Int) else 0
  let msgs1 := if sneak then msgs ++ [LogMsg.sneakAttackMsg] else msgs
  let fx1 := if sneak then
      fx ++ [{ kind := EffectKind.sneakFx, damage := some sa, hit_type := none }]
    else fx
  let dmg := (diceSum : Int) + sa + bonus_damage + c.bonus_damage
  let td := target.take_damage dmg
  let target1 := { td.1 with off_guard := false }
  { used := 1, hit := true, target := target1,
    msgs := msgs1 ++ [LogMsg.damageTotal] ++ td.2,
    effects := fx1,
    waveCheck := !target1.is_alive }

/-- Resolution phase of `Character.attack` (after the precondition and
Sanctuary gates): flanking may set the target `off_guard`, then the d20 roll
is compared to the target's current AC.  `k` is the index of the first unused
`randint` draw (0, or 1 when a Will save was rolled). -/
def Character.attackResolve (c : Character) (target0 : Character)
    (others : List Character) (dice : Nat × Nat) (bonus_damage : Int)
    (sneak_attack : Bool) (rng : Nat → Nat) (k : Nat)
    (msgs0 : List LogMsg) (fx0 : List Effect) : AttackOutcome :=
  let target := if c.is_flanking target0 others then { target0 with off_guard := true }
    else target0
  let roll := randint rng k 20
  let total : Int := (roll : Int) + c.attack_bonus
  let target_ac := target.get_ac
  let msgs := msgs0 ++ [LogMsg.rollToHit]
  if roll = 1 then
    { used := 1, hit := false, target := { target with off_guard := false },
      msgs := msgs ++ [LogMsg.criticalMiss], effects := fx0 ++ [missEffect],
      waveCheck := false }
  else
    let dice_num := dice.1
    let dice_sides := dice.2
    if roll = 20 ∨ target_ac + 10 ≤ total then
      let damage_rolls := (List.range (dice_num * 2)).map
        (fun i => randint rng (k + 1 + i) dice_sides)
      c.applyHit target damage_rolls.sum bonus_damage sneak_attack rng
        (k + 1 + dice_num * 2)
        (msgs ++ [LogMsg.criticalHit, LogMsg.damageLine])
        (fx0 ++ [{ kind := EffectKind.criticalFx,
                   damage := some (damage_rolls.sum : Int),
                   hit_type := some HitType.critical }])
    else if target_ac ≤ total then
      let damage_rolls := (List.range dice_num).map
        (fun i => randint rng (k + 1 + i) dice_sides)
      c.applyHit target damage_rolls.sum bonus_damage sneak_attack rng
        (k + 1 + dice_num)
        (msgs ++ [LogMsg.hitMsg, LogMsg.damageLine])
        (fx0 ++ [{ kind := EffectKind.strikeFx,
                   damage := some (damage_rolls.sum : Int),
                   hit_type := some HitType.hit }])
    else
      { used := 1, hit := false, target := { target with off_guard := false },
        msgs := msgs ++ [LogMsg.missMsg], effects := fx0 ++ [missEffect],
        waveCheck := false }

/-- `Character.attack` of `pf2e_grid_combat.py`: precondition gates
(action budget, target alive, melee range 1), the enemy-only Sanctuary Will
save (d20+2 vs DC 15, Sanctuary removed in both branches), then resolution.
`actions_left` is `game.actions_left` at the call. -/
def Character.attack (c : Character) (target : Character)
    (others : List Character) (actions_left : Int) (dice : Nat × Nat)
    (bonus_damage : Int) (sneak_attack : Bool) (rng : Nat → Nat) : AttackOutcome :=
  if actions_left < 1 then
    { used := 0, hit := false, target := target,
      msgs := [LogMsg.notEnoughActions], effects := [], waveCheck := false }
  else if !target.is_alive then
    { used := 0, hit := false, target := target,
      msgs := [], effects := [], waveCheck := false }
  else if 1 < c.position.distance_to target.position then
    { used := 0, hit := false, target := target,
      msgs := [LogMsg.outOfRange], effects := [], waveCheck := false }
  else if c.is_enemy && target.sanctuary_active then
    let will_save := randint rng 0 20 + 2
    let msgsW := [LogMsg.willSavePrompt, LogMsg.willSaveRoll]
    if will_save < 15 then
      { used := 1, hit := false,
        target := target.remove_condition "Sanctuary",
        msgs := msgsW ++ [LogMsg.cannotAttack, LogMsg.sanctuaryFades],
        effects := [missEffect], waveCheck := false }
    else
      c.attackResolve (target.remove_condition "Sanctuary") others dice
        bonus_damage sneak_attack rng 1
        (msgsW ++ [LogMsg.overcomesSanctuary, LogMsg.sanctuaryBroken]) []
  else
    c.attackResolve target others dice bonus_damage sneak_attack rng 0 [] []

/-- `Character.heal_full`: set `hp` to `max_hp` (through the setter). -/
def Character.heal_full (c : Character) : Character :=
  c.setHp c.max_hp

/-- `Character.heal_amount`: `hp = min(hp + amount, max_hp)` through the setter. -/
def Character.heal_amount (c : Character) (amount : Int) : Character :=
  c.setHp (min (c.hp + amount) c.max_hp)

/-- `Character.heal` (drink a potion): +15 hp capped at `max_hp`, one potion
spent; no-op returning 0 when out of potions. -/
def Character.healPotion (c : Character) : Character × Nat :=
  if 0 < c.potions then
    ({ c.setHp (min (c.hp + 15) c.max_hp) with potions := c.potions - 1 }, 1)
  else
    (c, 0)

/-- Upgrade kinds of `Character.apply_upgrade` (`unknown` covers any other
string argument, which the source leaves unapplied). -/
inductive UpgradeType
  | accuracy
  | damage
  | speedUp
  | vitality
  | unknown
deriving DecidableEq, Repr

/-- `Character.apply_upgrade`: Accuracy +1 attack bonus, Damage +2 bonus
damage, Speed +10 feet, Vitality +10 max hp then +10 hp (both via setters). -/
def Character.apply_upgrade (c : Character) (u : UpgradeType) : Character :=
  match u with
  | UpgradeType.accuracy => { c with attack_bonus := c.attack_bonus + 1 }
  | UpgradeType.damage => { c with bonus_damage := c.bonus_damage + 2 }
  | UpgradeType.speedUp => c.setSpeed (c.speed + 10)
  | UpgradeType.vitality =>
      let c1 := c.setMaxHp (c.max_hp + 10)
      c1.setHp (c1.hp + 10)
  | UpgradeType.unknown => c

/-- `Cleric.SPIRIT_LINK_RANGE` (6 squares = 30 feet). -/
def SPIRIT_LINK_RANGE : Nat := 6

/-- Result of a two-character ability: `(used, ok)` plus both updated
characters. -/
structure AbilityResult where
  used : Nat
  ok : Bool
  caster : Character
  target : Character
deriving DecidableEq, Repr

/-- `Cleric.spirit_link`: out of range aborts with `(0, false)`; otherwise both
participants' hp are set (through the clamping setter) to
`min((hp_caster + hp_target) // 2, own max_hp)`, and the call returns
`(1, true)`.  Python `//` is floor division, i.e. `Int.fdiv`. -/
def Character.spirit_link (c : Character) (target : Character) : AbilityResult :=
  if SPIRIT_LINK_RANGE < c.position.distance_to target.position then
    { used := 0, ok := false, caster := c, target := target }
  else
    let new_hp := Int.fdiv (c.hp + target.hp) 2
    { used := 1, ok := true,
      caster := c.setHp (min new_hp c.max_hp),
      target := target.setHp (min new_hp target.max_hp) }

/-- Game mode strings of `pf2e_grid_combat.py` (`self.state`). -/
inductive GameMode
  | intro
  | class_select
  | combat
  | upgrade
  | wave_confirmation
  | victory
  | game_over
deriving DecidableEq, Repr

/-- The slice of the `Game` object that `check_wave_complete` reads and
writes (presentation-only fields such as the overlay start tick are owned by
the excluded UI layer). -/
structure Game where
  state : GameMode
  current_enemies : List Character
  actions_left : Int
  action_delay : Int
  victory_overlay_active : Bool
  wave_number : Nat
  msgs : List LogMsg
deriving Repr

/-- `Game.check_wave_complete`: only checks during combat; if no deployed
enemy of the current wave is alive, zero the action budget and pending-AI
flags, raise the victory overlay, log the wave-complete line for waves before
the last, and return true. -/
def Game.check_wave_complete (g : Game) : Bool × Game :=
  if g.state ≠ GameMode.combat then
    (false, g)
  else if (g.current_enemies.filter (fun e => e.is_alive)).isEmpty then
    (true,
      { g with
        actions_left := 0,
        action_delay := 0,
        victory_overlay_active := true,
        msgs := g.msgs ++ (if g.wave_number < 3 then [LogMsg.waveComplete] else []) })
  else
    (false, g)

/-- The slice of game state that `get_actions` reads: movement-confirmation
mode, whether `game.selected_character` is this character, the action budget,
the selected target (if any), the party list (read by the Enemy menu), and
`game.get_all_characters()` minus this character (read through
`get_valid_moves` for the Enemy menu's movement options). -/
structure GameView where
  movement_confirmation_mode : Bool
  selected_character_is_self : Bool
  actions_left : Int
  selected_target : Option Character
  party : List Character
  others : List Character
deriving Repr

/-- Labels of the action-menu entries built by `get_actions` (the attached
Python lambda is a deferred invocation identified by its label;
`magicMissile n` carries the action count baked into its label and
callable). -/
inductive ActionLabel
  | confirmMove
  | cancelMove
  | stride
  | potionHeal
  | raiseShield
  | strike
  | powerAttack
  | twinFeint
  | arcaneBlast
  | magicMissile (n : Nat)
  | shieldSpell
  | spiritLink
  | sanctuarySpell
  | heal1
  | heal2
  | heal3
  | endTurn
  | enemyAttack
  | moveTo
deriving DecidableEq, Repr

/-- One action-menu entry: label plus the position the source stores with it. -/
structure ActionEntry where
  label : ActionLabel
  pos : GridPosition
deriving DecidableEq, Repr

/-- `Fighter.get_actions`, translated statement by statement.  The source only
appends to a local list, so the function returns the menu together with the
unchanged character and game view (the claims quantify over this frame). -/
def Fighter.get_actions (c : Character) (g : GameView) :
    List ActionEntry × Character × GameView :=
  if g.movement_confirmation_mode && g.selected_character_is_self then
    ([⟨ActionLabel.confirmMove, c.position⟩, ⟨ActionLabel.cancelMove, c.position⟩], c, g)
  else
    let actions : List ActionEntry := []
    let actions := if 1 ≤ g.actions_left then
        actions ++ [⟨ActionLabel.stride, c.position⟩] else actions
    let actions := if 1 ≤ g.actions_left ∧ 0 < c.potions then
        actions ++ [⟨ActionLabel.potionHeal, c.position⟩] else actions
    let actions := if 1 ≤ g.actions_left ∧ ¬ c.shield_raised then
        actions ++ [⟨ActionLabel.raiseShield, c.position⟩] else actions
    let actions :=
      match g.selected_target with
      | none => actions
      | some t =>
          if t.is_alive then
            let distance := c.position.distance_to t.position
            let actions := if distance ≤ 1 ∧ 1 ≤ g.actions_left then
                actions ++ [⟨ActionLabel.strike, c.position⟩] else actions
            if distance ≤ 1 ∧ 2 ≤ g.actions_left then
                actions ++ [⟨ActionLabel.powerAttack, c.position⟩] else actions
          else actions
    (actions ++ [⟨ActionLabel.endTurn, c.position⟩], c, g)

/-- `Cleric.SANCTUARY_RANGE` (1 square). -/
def SANCTUARY_RANGE : Nat := 1

/-- `Cleric.LESSER_HEAL_RANGE` (1 square, touch). -/
def LESSER_HEAL_RANGE : Nat := 1

/-- `Cleric.LESSER_HEAL_UP_RANGE` (6 squares = 30 feet). -/
def LESSER_HEAL_UP_RANGE : Nat := 6

/-- `Cleric.get_actions`, translated statement by statement; same frame shape
as `Fighter.get_actions`. -/
def Cleric.get_actions (c : Character) (g : GameView) :
    List ActionEntry × Character × GameView :=
  if g.movement_confirmation_mode && g.selected_character_is_self then
    ([⟨ActionLabel.confirmMove, c.position⟩, ⟨ActionLabel.cancelMove, c.position⟩], c, g)
  else
    let actions : List ActionEntry := []
    let actions := if 1 ≤ g.actions_left then
        actions ++ [⟨ActionLabel.stride, c.position⟩] else actions
    let actions := if 1 ≤ g.actions_left ∧ 0 < c.potions then
        actions ++ [⟨ActionLabel.potionHeal, c.position⟩] else actions
    let actions :=
      match g.selected_target with
      | none => actions
      | some t =>
          if t.is_alive then
            let distance := c.position.distance_to t.position
            let actions := if distance ≤ 1 ∧ 1 ≤ g.actions_left then
                actions ++ [⟨ActionLabel.strike, c.position⟩] else actions
            let actions := if distance ≤ SPIRIT_LINK_RANGE ∧ 1 ≤ g.actions_left then
                actions ++ [⟨ActionLabel.spiritLink, c.position⟩] else actions
            let actions := if distance ≤ SANCTUARY_RANGE ∧ 1 ≤ g.actions_left then
                actions ++ [⟨ActionLabel.sanctuarySpell, c.position⟩] else actions
            let actions := if distance ≤ LESSER_HEAL_RANGE ∧ 1 ≤ g.actions_left then
                actions ++ [⟨ActionLabel.heal1, c.position⟩] else actions
            let actions := if distance ≤ LESSER_HEAL_UP_RANGE ∧ 2 ≤ g.actions_left then
                actions ++ [⟨ActionLabel.heal2, c.position⟩] else actions
            if 3 ≤ g.actions_left then
                actions ++ [⟨ActionLabel.heal3, c.position⟩] else actions
          else actions
    (actions ++ [⟨ActionLabel.endTurn, c.position⟩], c, g)

/-- The base `Character.get_actions` (movement-confirmation entries, Stride,
Potion; no End Turn entry at the base level), translated statement by
statement; only appends to a local list, so character and game view come
back unchanged. -/
def Character.get_actions (c : Character) (g : GameView) :
    List ActionEntry × Character × GameView :=
  if g.movement_confirmation_mode && g.selected_character_is_self then
    ([⟨ActionLabel.confirmMove, c.position⟩, ⟨ActionLabel.cancelMove, c.position⟩], c, g)
  else
    let actions : List ActionEntry := []
    let actions := if 1 ≤ g.actions_left then
        actions ++ [⟨ActionLabel.stride, c.position⟩] else actions
    let actions := if 1 ≤ g.actions_left ∧ 0 < c.potions then
        actions ++ [⟨ActionLabel.potionHeal, c.position⟩] else actions
    (actions, c, g)

/-- `Rogue.get_actions`, translated statement by statement; same frame shape
as `Fighter.get_actions`. -/
def Rogue.get_actions (c : Character) (g : GameView) :
    List ActionEntry × Character × GameView :=
  if g.movement_confirmation_mode && g.selected_character_is_self then
    ([⟨ActionLabel.confirmMove, c.position⟩, ⟨ActionLabel.cancelMove, c.position⟩], c, g)
  else
    let actions : List ActionEntry := []
    let actions := if 1 ≤ g.actions_left then
        actions ++ [⟨ActionLabel.stride, c.position⟩] else actions
    let actions := if 1 ≤ g.actions_left ∧ 0 < c.potions then
        actions ++ [⟨ActionLabel.potionHeal, c.position⟩] else actions
    let actions :=
      match g.selected_target with
      | none => actions
      | some t =>
          if t.is_alive then
            let distance := c.position.distance_to t.position
            let actions := if distance ≤ 1 ∧ 1 ≤ g.actions_left then
                actions ++ [⟨ActionLabel.strike, c.position⟩] else actions
            if distance ≤ 1 ∧ 2 ≤ g.actions_left then
                actions ++ [⟨ActionLabel.twinFeint, c.position⟩] else actions
          else actions
    (actions ++ [⟨ActionLabel.endTurn, c.position⟩], c, g)

/-- `Wizard.ARCANE_BLAST_RANGE` (4 squares = 20 feet). -/
def ARCANE_BLAST_RANGE : Nat := 4

/-- `Wizard.MAGIC_MISSILE_RANGE` (24 squares = 120 feet). -/
def MAGIC_MISSILE_RANGE : Nat := 24

/-- `Wizard.get_actions`, translated statement by statement.  The Magic
Missile loop `for i in range(1, min(actions_left + 1, 4))` emits one entry
per affordable action count 1..3; range arithmetic that goes nonpositive
yields no entries, as in Python. -/
def Wizard.get_actions (c : Character) (g : GameView) :
    List ActionEntry × Character × GameView :=
  if g.movement_confirmation_mode && g.selected_character_is_self then
    ([⟨ActionLabel.confirmMove, c.position⟩, ⟨ActionLabel.cancelMove, c.position⟩], c, g)
  else
    let actions : List ActionEntry := []
    let actions := if 1 ≤ g.actions_left then
        actions ++ [⟨ActionLabel.stride, c.position⟩] else actions
    let actions := if 1 ≤ g.actions_left ∧ 0 < c.potions then
        actions ++ [⟨ActionLabel.potionHeal, c.position⟩] else actions
    let actions :=
      match g.selected_target with
      | none => actions
      | some t =>
          if t.is_alive then
            let distance := c.position.distance_to t.position
            let actions := if distance ≤ ARCANE_BLAST_RANGE ∧ 1 ≤ g.actions_left then
                actions ++ [⟨ActionLabel.arcaneBlast, c.position⟩] else actions
            if distance ≤ MAGIC_MISSILE_RANGE then
              actions ++ (List.range (min (g.actions_left + 1) 4 - 1).toNat).map
                (fun j => ⟨ActionLabel.magicMissile (j + 1), c.position⟩)
            else actions
          else actions
    let actions := if 1 ≤ g.actions_left ∧ ¬ c.shield_up then
        actions ++ [⟨ActionLabel.shieldSpell, c.position⟩] else actions
    (actions ++ [⟨ActionLabel.endTurn, c.position⟩], c, g)

/-- The integer interval `[lo, hi)`, as Python `range(lo, hi)`. -/
def intRange (lo hi : Int) : List Int :=
  (List.range (hi - lo).toNat).map (fun i => lo + i)

/-- `Character.get_valid_moves`: every square within `speed // 5` Chebyshev
squares (clipped to the grid, x outer loop then y) that `can_move_to`
accepts. -/
def Character.get_valid_moves (c : Character) (others : List Character) :
    List GridPosition :=
  let max_squares := Int.fdiv c.speed 5
  (intRange (max 0 (c.position.x - max_squares))
      (min GRID_COLS (c.position.x + max_squares + 1))).flatMap
    (fun x =>
      (intRange (max 0 (c.position.y - max_squares))
          (min GRID_ROWS (c.position.y + max_squares + 1))).filterMap
        (fun y =>
          if c.can_move_to ⟨x, y⟩ others then some ⟨x, y⟩ else none))

/-- `Enemy.get_actions`: one Attack entry per living party member in melee
range (party order), then, with budget left, one Move entry per valid
destination; reads the party and occupant lists, mutates nothing. -/
def Enemy.get_actions (c : Character) (g : GameView) :
    List ActionEntry × Character × GameView :=
  let actions : List ActionEntry :=
    (g.party.filter (fun ch =>
        ch.is_alive ∧ c.position.distance_to ch.position ≤ 1)).map
      (fun ch => ⟨ActionLabel.enemyAttack, ch.position⟩)
  let actions := if 1 ≤ g.actions_left then
      actions ++ (c.get_valid_moves g.others).map
        (fun pos => ⟨ActionLabel.moveTo, pos⟩)
    else actions
  (actions, c, g)

namespace BC

/-!
Embedding of the duplicated module `src/src/entities/base_character.py`
(namespace `BC`), where it diverges from `pf2e_grid_combat.py`:
* `can_move_to` blocks on any other character at the destination, dead or
  alive (no `is_alive()` filter);
* `attack` has no Sanctuary gate, logs a flanked message, and grants the
  extra sneak-attack d6 on `sneak_attack or target.off_guard` with no
  Rogue check;
* `take_damage` writes the plain attribute `hp = max(0, hp - damage)`
  (no property clamp) and flips `alive` only at exactly 0.
Grid bounds come from `src/constants/game_constants.py` (16 x 12).
-/

/-- `GRID_COLS` of `src/constants/game_constants.py`. -/
def GRID_COLS : Int := 16

/-- `GRID_ROWS` of `src/constants/game_constants.py`. -/
def GRID_ROWS : Int := 12

/-- `Character.can_move_to` of the duplicated module: bounds, occupancy by
*any* other character (no liveness filter), movement cost. -/
def can_move_to (c : Character) (new_pos : GridPosition)
    (others : List Character) : Bool :=
  if ¬ (0 ≤ new_pos.x ∧ new_pos.x < GRID_COLS ∧ 0 ≤ new_pos.y ∧ new_pos.y < GRID_ROWS) then
    false
  else if others.any (fun ch => ch.position = new_pos) then
    false
  else
    decide ((c.position.distance_to new_pos : Int) * 5 ≤ c.speed)

/-- `Character.move_to` of the duplicated module. -/
def move_to (c : Character) (new_pos : GridPosition)
    (others : List Character) : Character × Bool :=
  if can_move_to c new_pos others then
    ({ c with position := new_pos }, true)
  else
    (c, false)

/-- The miss effect of the duplicated module (`effect_type="miss"` only, no
hit tag kwarg). -/
def missFxBC : Effect :=
  { kind := EffectKind.missFx, damage := none, hit_type := none }

/-- `Character.take_damage` of the duplicated module: plain attribute write
`hp = max(0, hp - damage)`, `alive` flipped false only when hp hits 0. -/
def take_damage (c : Character) (damage : Int) : Character × List LogMsg :=
  let newHp := max 0 (c.hp - damage)
  let c1 := { c with hp := newHp, alive := if newHp = 0 then false else c.alive }
  (c1, [LogMsg.takesDamage] ++ (if newHp = 0 then [LogMsg.hasFallen] else []))

/-- Hit tail of the duplicated module's `attack`: the extra d6 fires on
`sneak_attack or target.off_guard`, for every archetype. -/
def applyHit (c : Character) (target : Character) (diceSum : Nat)
    (bonus_damage : Int) (sneak_attack : Bool) (rng : Nat → Nat) (k : Nat)
    (msgs : List LogMsg) (fx : List Effect) : AttackOutcome :=
  let sneak := sneak_attack || target.off_guard
  let sa : Int := if sneak then (randint rng k 6 : Int) else 0
  let msgs1 := if sneak then msgs ++ [LogMsg.sneakAttackMsg] else msgs
  let fx1 := if sneak then
      fx ++ [{ kind := EffectKind.sneakFx, damage := none, hit_type := none }]
    else fx
  let dmg := (diceSum : Int) + sa + bonus_damage + c.bonus_damage
  let td := take_damage target dmg
  let target1 := { td.1 with off_guard := false }
  { used := 1, hit := true, target := target1,
    msgs := msgs1 ++ [LogMsg.damageTotal] ++ td.2,
    effects := fx1,
    waveCheck := !target1.is_alive }

/-- `Character.attack` of the duplicated module: same precondition gates and
roll arithmetic as the main module, no Sanctuary gate, a log line on
flanking, and the class-blind sneak-attack condition.  `is_flanking` is
textually identical in both modules, so the main embedding is reused. -/
def attack (c : Character) (target : Character) (others : List Character)
    (actions_left : Int) (dice : Nat × Nat) (bonus_damage : Int)
    (sneak_attack : Bool) (rng : Nat → Nat) : AttackOutcome :=
  if actions_left < 1 then
    { used := 0, hit := false, target := target,
      msgs := [LogMsg.notEnoughActions], effects := [], waveCheck := false }
  else if !target.is_alive then
    { used := 0, hit := false, target := target,
      msgs := [], effects := [], waveCheck := false }
  else if 1 < c.position.distance_to target.position then
    { used := 0, hit := false, target := target,
      msgs := [LogMsg.outOfRange], effects := [], waveCheck := false }
  else
    let flanked := c.is_flanking target others
    let target := if flanked then { target with off_guard := true } else target
    let msgs0 : List LogMsg := if flanked then [LogMsg.flankedMsg] else []
    let roll := randint rng 0 20
    let total : Int := (roll : Int) + c.attack_bonus
    let target_ac := target.get_ac
    let msgs := msgs0 ++ [LogMsg.rollToHit]
    if roll = 1 then
      { used := 1, hit := false, target := { target with off_guard := false },
        msgs := msgs ++ [LogMsg.criticalMiss], effects := [missFxBC],
        waveCheck := false }
    else
      let dice_num := dice.1
      let dice_sides := dice.2
      if roll = 20 ∨ target_ac + 10 ≤ total then
        let damage_rolls := (List.range (dice_num * 2)).map
          (fun i => randint rng (1 + i) dice_sides)
        applyHit c target damage_rolls.sum bonus_damage sneak_attack rng
          (1 + dice_num * 2)
          (msgs ++ [LogMsg.criticalHit])
          [{ kind := EffectKind.criticalFx, damage := none, hit_type := none }]
      else if target_ac ≤ total then
        let damage_rolls := (List.range dice_num).map
          (fun i => randint rng (1 + i) dice_sides)
        applyHit c target damage_rolls.sum bonus_damage sneak_attack rng
          (1 + dice_num)
          (msgs ++ [LogMsg.hitMsg])
          [{ kind := EffectKind.strikeFx, damage := none, hit_type := none }]
      else
        { used := 1, hit := false, target := { target with off_guard := false },
          msgs := msgs ++ [LogMsg.missMsg], effects := [missFxBC],
          waveCheck := false }

end BC

/-- The flanking rule exactly as the spec words it (refinement comparison
definition, written from the spec, not from the source): some living ally of
the same side, adjacent to the target (distance ≤ 1), positioned on the
directly opposite side of the attacker along a shared row, column, or diagonal
through the target's square, with the target as the midpoint. -/
def spec_is_flanking (c : Character) (target : Character)
    (others : List Character) : Bool :=
  target.is_alive &&
  others.any (fun ally =>
    ally.is_alive && (ally.is_enemy == c.is_enemy) &&
    decide (ally.position.distance_to target.position ≤ 1) &&
    decide (c.position.x + ally.position.x = 2 * target.position.x ∧
            c.position.y + ally.position.y = 2 * target.position.y) &&
    (decide (c.position.y = target.position.y ∧ target.position.y = ally.position.y ∧
             c.position.x ≠ target.position.x) ||
     decide (c.position.x = target.position.x ∧ target.position.x = ally.position.x ∧
             c.position.y ≠ target.position.y) ||
     decide ((c.position.x - target.position.x).natAbs =
               (c.position.y - target.position.y).natAbs ∧
             c.position.x ≠ target.position.x ∧ c.position.y ≠ target.position.y)))

/-- The hp range invariant of the spec: `0 ≤ hp ≤ max_hp`. -/
def hpInv (c : Character) : Prop :=
  0 ≤ c.hp ∧ c.hp ≤ c.max_hp

/-- Character built the way the Python `Character.__init__` does (default
speed 25 feet, 3 potions, no conditions, placed at the given square). -/
def mkChar (nm : String) (hp ac atk : Int) (arch : Archetype)
    (pos : GridPosition) (enemy : Bool) : Character :=
  { name := nm, max_hp := hp, hp := hp, base_ac := ac, attack_bonus := atk,
    position := pos, alive := true, speed := 25, potions := 3, bonus_damage := 0,
    off_guard := false, is_enemy := enemy, conditions := [],
    sanctuary_active := false, archetype := arch, shield_raised := false,
    shield_up := false, damage_dice := (1, 8) }

/-- A Fighter with the archetype's base stats, at (2,2). -/
def sampleFighter : Character :=
  mkChar "Valeros" 50 18 9 Archetype.fighter ⟨2, 2⟩ false

/-- A Rogue with the archetype's base stats, at (2,2), speed 30. -/
def sampleRogue : Character :=
  { mkChar "Merisiel" 38 17 8 Archetype.rogue ⟨2, 2⟩ false with speed := 30 }

/-- A Cleric with the archetype's base stats, at (2,2). -/
def sampleCleric : Character :=
  mkChar "Kyra" 32 16 6 Archetype.cleric ⟨2, 2⟩ false

/-- A Goblin enemy with wave-1 stats, at (3,2), adjacent to the samples. -/
def sampleGoblin : Character :=
  mkChar "Goblin" 20 15 5 Archetype.enemy ⟨3, 2⟩ true

/-- The sample Cleric with an active 3-round Sanctuary condition. -/
def sanctuaryCleric : Character :=
  { sampleCleric with
    conditions := [("Sanctuary", 3)]
    sanctuary_active := true }

/-- A game sitting on the upgrade screen whose current wave's only enemy is
already dead. -/
def upgradeGameDeadWave : Game :=
  { state := GameMode.upgrade
    current_enemies := [{ sampleGoblin with hp := 0 }]
    actions_left := 3
    action_delay := 0
    victory_overlay_active := false
    wave_number := 1
    msgs := [] }

/-! ### Shared helper lemmas -/

theorem setHp_hpInv (c : Character) (v : Int) (hm : 0 ≤ c.max_hp) :
    hpInv (c.setHp v) := by
  simp only [Character.setHp, hpInv]
  constructor
  · omega
  · omega

theorem setHp_max_hp (c : Character) (v : Int) :
    (c.setHp v).max_hp = c.max_hp := rfl

theorem take_damage_hpInv (c : Character) (dmg : Int) (hm : 0 ≤ c.max_hp) :
    hpInv (c.take_damage dmg).1 := by
  simp only [Character.take_damage]
  exact setHp_hpInv c _ hm

theorem applyHit_target_hpInv (c t : Character) (diceSum : Nat) (bd : Int)
    (sn : Bool) (rng : Nat → Nat) (k : Nat) (m : List LogMsg) (f : List Effect)
    (hm : 0 ≤ t.max_hp) :
    hpInv (c.applyHit t diceSum bd sn rng k m f).target := by
  simp only [Character.applyHit, Character.take_damage]
  have h := setHp_hpInv t (max 0 (t.hp - ((diceSum : Int) +
    (if sn && decide (c.archetype = Archetype.rogue) then (randint rng k 6 : Int) else 0) +
    bd + c.bonus_damage))) hm
  simpa [hpInv] using h

theorem attackResolve_target_hpInv (c t : Character) (others : List Character)
    (dice : Nat × Nat) (bd : Int) (sn : Bool) (rng : Nat → Nat) (k : Nat)
    (m : List LogMsg) (f : List Effect) (hinv : hpInv t) :
    hpInv (c.attackResolve t others dice bd sn rng k m f).target := by
  have hm : 0 ≤ t.max_hp := le_trans hinv.1 hinv.2
  unfold Character.attackResolve
  by_cases hf : c.is_flanking t others
  all_goals simp only [hf, if_true, if_false, Bool.false_eq_true]
  all_goals split
  · exact hinv
  · split
    · exact applyHit_target_hpInv _ _ _ _ _ _ _ _ _ hm
    · split
      · exact applyHit_target_hpInv _ _ _ _ _ _ _ _ _ hm
      · exact hinv
  · exact hinv
  · split
    · exact applyHit_target_hpInv _ _ _ _ _ _ _ _ _ hm
    · split
      · exact applyHit_target_hpInv _ _ _ _ _ _ _ _ _ hm
      · exact hinv

theorem attack_target_hpInv (c t : Character) (others : List Character)
    (al : Int) (dice : Nat × Nat) (bd : Int) (sn : Bool) (rng : Nat → Nat)
    (hinv : hpInv t) :
    hpInv (c.attack t others al dice bd sn rng).target := by
  have hrc : hpInv (t.remove_condition "Sanctuary") := hinv
  unfold Character.attack
  split
  · exact hinv
  · split
    · exact hinv
    · split
      · exact hinv
      · split
        · dsimp only
          split
          · exact hrc
          · exact attackResolve_target_hpInv _ _ _ _ _ _ _ _ _ _ hrc
        · exact attackResolve_target_hpInv _ _ _ _ _ _ _ _ _ _ hinv

/-! ### C2 -/

/-- C2: every hp-writing operation of the character model preserves
`0 ≤ hp ≤ max_hp` (writes funnel through the clamping `hp` setter), and
`is_alive()` recomputes `hp > 0` on every call. -/
theorem c2_hp_invariant (c d : Character) (v dmg amt : Int) (u : UpgradeType)
    (others : List Character) (al : Int) (dice : Nat × Nat) (bd : Int)
    (sn : Bool) (rng : Nat → Nat)
    (hc : hpInv c) (hd : hpInv d) :
    (c.is_alive = decide (0 < c.hp)) ∧
    hpInv (c.setHp v) ∧
    hpInv (c.take_damage dmg).1 ∧
    hpInv (c.heal_amount amt) ∧
    hpInv c.heal_full ∧
    hpInv c.healPotion.1 ∧
    hpInv (c.apply_upgrade u) ∧
    hpInv (c.spirit_link d).caster ∧
    hpInv (c.spirit_link d).target ∧
    hpInv (c.attack d others al dice bd sn rng).target := by
  have hcm : 0 ≤ c.max_hp := le_trans hc.1 hc.2
  have hdm : 0 ≤ d.max_hp := le_trans hd.1 hd.2
  refine ⟨rfl, setHp_hpInv c v hcm, take_damage_hpInv c dmg hcm,
    setHp_hpInv c _ hcm, setHp_hpInv c _ hcm, ?_, ?_, ?_, ?_,
    attack_target_hpInv c d others al dice bd sn rng hd⟩
  · unfold Character.healPotion
    split
    · exact setHp_hpInv c _ hcm
    · exact hc
  · cases u
    · exact hc
    · exact hc
    · exact hc
    · have h1 : 0 ≤ (c.setMaxHp (c.max_hp + 10)).max_hp := by
        simp only [Character.setMaxHp]
        omega
      exact setHp_hpInv _ _ h1
    · exact hc
  · unfold Character.spirit_link
    split
    · exact hc
    · exact setHp_hpInv c _ hcm
  · unfold Character.spirit_link
    split
    · exact hd
    · exact setHp_hpInv d _ hdm

/-- C2 witness: the invariant theorem applied to the sample Fighter and the
sample Goblin with concrete operation arguments. -/
theorem c2_hp_invariant_witness :
    (sampleFighter.is_alive = decide (0 < sampleFighter.hp)) ∧
    hpInv (sampleFighter.setHp 60) ∧
    hpInv (sampleFighter.take_damage 7).1 ∧
    hpInv (sampleFighter.heal_amount 4) ∧
    hpInv sampleFighter.heal_full ∧
    hpInv sampleFighter.healPotion.1 ∧
    hpInv (sampleFighter.apply_upgrade UpgradeType.vitality) ∧
    hpInv (sampleFighter.spirit_link sampleGoblin).caster ∧
    hpInv (sampleFighter.spirit_link sampleGoblin).target ∧
    hpInv (sampleFighter.attack sampleGoblin [] 3 (1, 10) 0 false
      (fun _ => 14)).target :=
  c2_hp_invariant sampleFighter sampleGoblin 60 7 4 UpgradeType.vitality [] 3
    (1, 10) 0 false (fun _ => 14) (by constructor <;> decide)
    (by constructor <;> decide)

/-! ### C8 -/

/-- C8: an in-range Spirit Link sets both participants' hp to
`floor((hp_caster + hp_target) / 2)` clamped to each character's own
`max_hp`, and returns `(1, true)`. -/
theorem c8_spirit_link (c d : Character)
    (hrange : c.position.distance_to d.position ≤ SPIRIT_LINK_RANGE)
    (hc0 : 0 ≤ c.hp) (hd0 : 0 ≤ d.hp) (hcm : 0 ≤ c.max_hp) (hdm : 0 ≤ d.max_hp) :
    (c.spirit_link d).used = 1 ∧ (c.spirit_link d).ok = true ∧
    (c.spirit_link d).caster.hp = min (Int.fdiv (c.hp + d.hp) 2) c.max_hp ∧
    (c.spirit_link d).target.hp = min (Int.fdiv (c.hp + d.hp) 2) d.max_hp := by
  have hnn : 0 ≤ Int.fdiv (c.hp + d.hp) 2 := Int.fdiv_nonneg (by omega) (by omega)
  simp only [SPIRIT_LINK_RANGE] at hrange
  unfold Character.spirit_link
  rw [if_neg (by simp only [SPIRIT_LINK_RANGE]; omega)]
  refine ⟨rfl, rfl, ?_, ?_⟩
  · simp only [Character.setHp]
    generalize Int.fdiv (c.hp + d.hp) 2 = n at hnn ⊢
    omega
  · simp only [Character.setHp]
    generalize Int.fdiv (c.hp + d.hp) 2 = n at hnn ⊢
    omega

/-- C8 witness: the spec's end-to-end scenario — Cleric at 10/32 casts Spirit
Link on an ally at 30/38, both end at `floor(40/2) = 20`. -/
theorem c8_spirit_link_witness :
    ({ sampleCleric with hp := 10 }.spirit_link
        { sampleRogue with position := ⟨3, 2⟩, hp := 30 }).used = 1 ∧
    ({ sampleCleric with hp := 10 }.spirit_link
        { sampleRogue with position := ⟨3, 2⟩, hp := 30 }).ok = true ∧
    ({ sampleCleric with hp := 10 }.spirit_link
        { sampleRogue with position := ⟨3, 2⟩, hp := 30 }).caster.hp =
      min (Int.fdiv (10 + 30) 2) 32 ∧
    ({ sampleCleric with hp := 10 }.spirit_link
        { sampleRogue with position := ⟨3, 2⟩, hp := 30 }).target.hp =
      min (Int.fdiv (10 + 30) 2) 38 :=
  c8_spirit_link { sampleCleric with hp := 10 }
    { sampleRogue with position := ⟨3, 2⟩, hp := 30 }
    (by decide) (by decide) (by decide) (by decide) (by decide)

/-! ### C10 -/

/-- C10: `get_actions` of every archetype (base Character, Fighter, Rogue,
Wizard, Cleric, Enemy) is a pure query — it returns the character and game
view unchanged, and a second call on the state returned by the first call
yields the identical action list. -/
theorem c10_get_actions_pure (c : Character) (g : GameView) :
    (Character.get_actions c g).2 = (c, g) ∧
    (Fighter.get_actions c g).2 = (c, g) ∧
    (Rogue.get_actions c g).2 = (c, g) ∧
    (Wizard.get_actions c g).2 = (c, g) ∧
    (Cleric.get_actions c g).2 = (c, g) ∧
    (Enemy.get_actions c g).2 = (c, g) ∧
    (Character.get_actions (Character.get_actions c g).2.1
        (Character.get_actions c g).2.2).1 = (Character.get_actions c g).1 ∧
    (Fighter.get_actions (Fighter.get_actions c g).2.1
        (Fighter.get_actions c g).2.2).1 = (Fighter.get_actions c g).1 ∧
    (Rogue.get_actions (Rogue.get_actions c g).2.1
        (Rogue.get_actions c g).2.2).1 = (Rogue.get_actions c g).1 ∧
    (Wizard.get_actions (Wizard.get_actions c g).2.1
        (Wizard.get_actions c g).2.2).1 = (Wizard.get_actions c g).1 ∧
    (Cleric.get_actions (Cleric.get_actions c g).2.1
        (Cleric.get_actions c g).2.2).1 = (Cleric.get_actions c g).1 ∧
    (Enemy.get_actions (Enemy.get_actions c g).2.1
        (Enemy.get_actions c g).2.2).1 = (Enemy.get_actions c g).1 := by
  have hb : (Character.get_actions c g).2 = (c, g) := by
    unfold Character.get_actions
    split <;> rfl
  have hf : (Fighter.get_actions c g).2 = (c, g) := by
    unfold Fighter.get_actions
    split <;> rfl
  have hr : (Rogue.get_actions c g).2 = (c, g) := by
    unfold Rogue.get_actions
    split <;> rfl
  have hw : (Wizard.get_actions c g).2 = (c, g) := by
    unfold Wizard.get_actions
    split <;> rfl
  have hc : (Cleric.get_actions c g).2 = (c, g) := by
    unfold Cleric.get_actions
    split <;> rfl
  have he : (Enemy.get_actions c g).2 = (c, g) := rfl
  refine ⟨hb, hf, hr, hw, hc, he, ?_, ?_, ?_, ?_, ?_, ?_⟩
  · rw [hb]
  · rw [hf]
  · rw [hr]
  · rw [hw]
  · rw [hc]
  · rw [he]

/-! ### C4 -/

theorem applyHit_ledger (c t : Character) (diceSum : Nat) (bd : Int)
    (sn : Bool) (rng : Nat → Nat) (k : Nat) (m : List LogMsg) (f : List Effect) :
    (c.applyHit t diceSum bd sn rng k m f).target.conditions = t.conditions ∧
    (c.applyHit t diceSum bd sn rng k m f).target.sanctuary_active =
      t.sanctuary_active :=
  ⟨rfl, rfl⟩

theorem attackResolve_ledger (c t : Character) (others : List Character)
    (dice : Nat × Nat) (bd : Int) (sn : Bool) (rng : Nat → Nat) (k : Nat)
    (m : List LogMsg) (f : List Effect) :
    (c.attackResolve t others dice bd sn rng k m f).target.conditions =
      t.conditions ∧
    (c.attackResolve t others dice bd sn rng k m f).target.sanctuary_active =
      t.sanctuary_active := by
  unfold Character.attackResolve
  by_cases hf : c.is_flanking t others
  all_goals simp only [hf, if_true, if_false, Bool.false_eq_true]
  all_goals split
  · exact ⟨rfl, rfl⟩
  · split
    · exact applyHit_ledger _ _ _ _ _ _ _ _ _
    · split
      · exact applyHit_ledger _ _ _ _ _ _ _ _ _
      · exact ⟨rfl, rfl⟩
  · exact ⟨rfl, rfl⟩
  · split
    · exact applyHit_ledger _ _ _ _ _ _ _ _ _
    · split
      · exact applyHit_ledger _ _ _ _ _ _ _ _ _
      · exact ⟨rfl, rfl⟩

/-- C4: an enemy attack against a Sanctuary-protected target rolls a Will
save of d20+2 against DC 15; on a failed save the attack aborts with
`(1, false)` and a miss effect; the Sanctuary condition is removed from the
target whichever way the save goes. -/
theorem c4_sanctuary (c t : Character) (others : List Character) (al : Int)
    (dice : Nat × Nat) (bd : Int) (sn : Bool) (rng : Nat → Nat)
    (o : AttackOutcome) (ho : o = c.attack t others al dice bd sn rng)
    (hact : 1 ≤ al) (halive : t.is_alive = true)
    (hrange : c.position.distance_to t.position ≤ 1)
    (henemy : c.is_enemy = true) (hsanct : t.sanctuary_active = true) :
    (randint rng 0 20 + 2 < 15 →
      o.used = 1 ∧ o.hit = false ∧ o.effects = [missEffect] ∧
      o.target = t.remove_condition "Sanctuary") ∧
    (15 ≤ randint rng 0 20 + 2 →
      o.target.conditions = (t.remove_condition "Sanctuary").conditions) ∧
    o.target.sanctuary_active = false := by
  rw [Character.attack] at ho
  rw [if_neg (by omega), if_neg (by simp [halive]), if_neg (by omega),
    if_pos (by simp [henemy, hsanct])] at ho
  dsimp only at ho
  by_cases hw : randint rng 0 20 + 2 < 15
  · rw [if_pos hw] at ho
    subst ho
    refine ⟨fun _ => ⟨rfl, rfl, rfl, rfl⟩, fun h => absurd hw (by omega), ?_⟩
    simp [Character.remove_condition]
  · rw [if_neg hw] at ho
    subst ho
    have hled := attackResolve_ledger c (t.remove_condition "Sanctuary") others
      dice bd sn rng 1
      ([LogMsg.willSavePrompt, LogMsg.willSaveRoll] ++
        [LogMsg.overcomesSanctuary, LogMsg.sanctuaryBroken]) []
    refine ⟨fun h => absurd h hw, fun _ => ?_, ?_⟩
    · exact hled.1
    · rw [hled.2]
      simp [Character.remove_condition]

/-- C4 witness: the sample Goblin attacks a Sanctuary-protected Cleric with a
stream rolling 5 on the Will save (5+2 < 15): the attack aborts with
`(1, false)`, a miss effect, and the Sanctuary is consumed. -/
theorem c4_sanctuary_witness :
    (randint (fun _ => 4) 0 20 + 2 < 15 →
      (sampleGoblin.attack
          sanctuaryCleric [] 3 (1, 8) 0 false (fun _ => 4)).used = 1 ∧
      (sampleGoblin.attack
          sanctuaryCleric [] 3 (1, 8) 0 false (fun _ => 4)).hit = false ∧
      (sampleGoblin.attack
          sanctuaryCleric [] 3 (1, 8) 0 false (fun _ => 4)).effects =
        [missEffect] ∧
      (sampleGoblin.attack
          sanctuaryCleric [] 3 (1, 8) 0 false (fun _ => 4)).target =
        (sanctuaryCleric : Character).remove_condition "Sanctuary") ∧
    (15 ≤ randint (fun _ => 4) 0 20 + 2 →
      (sampleGoblin.attack
          sanctuaryCleric [] 3 (1, 8) 0 false (fun _ => 4)).target.conditions =
        ((sanctuaryCleric : Character).remove_condition
          "Sanctuary").conditions) ∧
    (sampleGoblin.attack
        sanctuaryCleric [] 3 (1, 8) 0 false
        (fun _ => 4)).target.sanctuary_active = false :=
  c4_sanctuary sampleGoblin
    sanctuaryCleric
    [] 3 (1, 8) 0 false (fun _ => 4) _ rfl (by decide) (by decide) (by decide)
    (by decide) (by decide)

/-! ### C1 -/

/-- C1: in the shared attack pipeline, with preconditions passing and r the
d20 roll and t = r + attack_bonus against the (possibly flank-adjusted)
target AC: r = 1 is an unconditional miss; else r = 20 or t ≥ AC+10 is a
critical hit rolling 2·(dice count) damage dice; else t ≥ AC is a normal hit
rolling the dice once; else a miss.  Every miss clears the target's
`off_guard` and returns `(1, false)`. -/
theorem c1_attack_pipeline (c t : Character) (others : List Character)
    (al : Int) (dn ds : Nat) (bd : Int) (sn : Bool) (rng : Nat → Nat)
    (o : AttackOutcome) (ho : o = c.attack t others al (dn, ds) bd sn rng)
    (ft : Character)
    (hft : ft = if c.is_flanking t others then { t with off_guard := true } else t)
    (hact : 1 ≤ al) (halive : t.is_alive = true)
    (hrange : c.position.distance_to t.position ≤ 1)
    (hsanct : ¬ (c.is_enemy = true ∧ t.sanctuary_active = true)) :
    (randint rng 0 20 = 1 →
      o = { used := 1, hit := false, target := { ft with off_guard := false },
            msgs := [LogMsg.rollToHit, LogMsg.criticalMiss],
            effects := [missEffect], waveCheck := false }) ∧
    (randint rng 0 20 ≠ 1 →
     (randint rng 0 20 = 20 ∨
        ft.get_ac + 10 ≤ (randint rng 0 20 : Int) + c.attack_bonus) →
      o.used = 1 ∧ o.hit = true ∧
      o.target = { (ft.take_damage
          ((((List.range (dn * 2)).map (fun i => randint rng (1 + i) ds)).sum : Int) +
           (if sn && decide (c.archetype = Archetype.rogue)
              then (randint rng (1 + dn * 2) 6 : Int) else 0) +
           bd + c.bonus_damage)).1 with off_guard := false }) ∧
    (randint rng 0 20 ≠ 1 →
     ¬ (randint rng 0 20 = 20 ∨
        ft.get_ac + 10 ≤ (randint rng 0 20 : Int) + c.attack_bonus) →
     ft.get_ac ≤ (randint rng 0 20 : Int) + c.attack_bonus →
      o.used = 1 ∧ o.hit = true ∧
      o.target = { (ft.take_damage
          ((((List.range dn).map (fun i => randint rng (1 + i) ds)).sum : Int) +
           (if sn && decide (c.archetype = Archetype.rogue)
              then (randint rng (1 + dn) 6 : Int) else 0) +
           bd + c.bonus_damage)).1 with off_guard := false }) ∧
    (randint rng 0 20 ≠ 1 →
     ¬ (randint rng 0 20 = 20 ∨
        ft.get_ac + 10 ≤ (randint rng 0 20 : Int) + c.attack_bonus) →
     ¬ (ft.get_ac ≤ (randint rng 0 20 : Int) + c.attack_bonus) →
      o = { used := 1, hit := false, target := { ft with off_guard := false },
            msgs := [LogMsg.rollToHit, LogMsg.missMsg],
            effects := [missEffect], waveCheck := false }) := by
  rw [Character.attack] at ho
  rw [if_neg (by omega), if_neg (by simp [halive]), if_neg (by omega),
    if_neg (by simp only [Bool.and_eq_true, decide_eq_true_eq]; exact hsanct)] at ho
  simp only [Character.attackResolve, List.nil_append, Nat.zero_add] at ho
  rw [← hft] at ho
  by_cases h1 : randint rng 0 20 = 1
  · rw [if_pos h1] at ho
    refine ⟨fun _ => ho, fun h => absurd h1 h, fun h => absurd h1 h,
      fun h => absurd h1 h⟩
  · rw [if_neg h1] at ho
    by_cases h2 : randint rng 0 20 = 20 ∨
        ft.get_ac + 10 ≤ (randint rng 0 20 : Int) + c.attack_bonus
    · rw [if_pos h2] at ho
      simp only [Character.applyHit, List.nil_append, Nat.zero_add] at ho
      subst ho
      exact ⟨fun h => absurd h h1, fun _ _ => ⟨rfl, rfl, rfl⟩,
        fun _ h => absurd h2 h, fun _ h => absurd h2 h⟩
    · rw [if_neg h2] at ho
      by_cases h3 : ft.get_ac ≤ (randint rng 0 20 : Int) + c.attack_bonus
      · rw [if_pos h3] at ho
        simp only [Character.applyHit, List.nil_append, Nat.zero_add] at ho
        subst ho
        exact ⟨fun h => absurd h h1, fun _ h => absurd h h2,
          fun _ _ _ => ⟨rfl, rfl, rfl⟩, fun _ _ h => absurd h3 h⟩
      · rw [if_neg h3] at ho
        exact ⟨fun h => absurd h h1, fun _ h => absurd h h2,
          fun _ _ h => absurd h h3, fun _ _ _ => ho⟩

/-- C1 witness: the spec's end-to-end scenario — Fighter (+9) vs Goblin
(AC 15) with the stream fixed at 14, so the d20 roll is 15, total 24:
no crit (24 < 25), a normal hit rolling 1d10 once. -/
theorem c1_attack_pipeline_witness :
    (randint (fun _ => 14) 0 20 = 1 →
      sampleFighter.attack sampleGoblin [] 3 (1, 10) 0 false (fun _ => 14) =
        { used := 1, hit := false,
          target := { sampleGoblin with off_guard := false },
          msgs := [LogMsg.rollToHit, LogMsg.criticalMiss],
          effects := [missEffect], waveCheck := false }) ∧
    (randint (fun _ => 14) 0 20 ≠ 1 →
     (randint (fun _ => 14) 0 20 = 20 ∨
        sampleGoblin.get_ac + 10 ≤
          (randint (fun _ => 14) 0 20 : Int) + sampleFighter.attack_bonus) →
      (sampleFighter.attack sampleGoblin [] 3 (1, 10) 0 false (fun _ => 14)).used = 1 ∧
      (sampleFighter.attack sampleGoblin [] 3 (1, 10) 0 false (fun _ => 14)).hit = true ∧
      (sampleFighter.attack sampleGoblin [] 3 (1, 10) 0 false (fun _ => 14)).target =
        { (sampleGoblin.take_damage
            ((((List.range (1 * 2)).map
                (fun i => randint (fun _ => 14) (1 + i) 10)).sum : Int) +
             (if false && decide (sampleFighter.archetype = Archetype.rogue)
                then (randint (fun _ => 14) (1 + 1 * 2) 6 : Int) else 0) +
             0 + sampleFighter.bonus_damage)).1 with off_guard := false }) ∧
    (randint (fun _ => 14) 0 20 ≠ 1 →
     ¬ (randint (fun _ => 14) 0 20 = 20 ∨
        sampleGoblin.get_ac + 10 ≤
          (randint (fun _ => 14) 0 20 : Int) + sampleFighter.attack_bonus) →
     sampleGoblin.get_ac ≤
        (randint (fun _ => 14) 0 20 : Int) + sampleFighter.attack_bonus →
      (sampleFighter.attack sampleGoblin [] 3 (1, 10) 0 false (fun _ => 14)).used = 1 ∧
      (sampleFighter.attack sampleGoblin [] 3 (1, 10) 0 false (fun _ => 14)).hit = true ∧
      (sampleFighter.attack sampleGoblin [] 3 (1, 10) 0 false (fun _ => 14)).target =
        { (sampleGoblin.take_damage
            ((((List.range 1).map
                (fun i => randint (fun _ => 14) (1 + i) 10)).sum : Int) +
             (if false && decide (sampleFighter.archetype = Archetype.rogue)
                then (randint (fun _ => 14) (1 + 1) 6 : Int) else 0) +
             0 + sampleFighter.bonus_damage)).1 with off_guard := false }) ∧
    (randint (fun _ => 14) 0 20 ≠ 1 →
     ¬ (randint (fun _ => 14) 0 20 = 20 ∨
        sampleGoblin.get_ac + 10 ≤
          (randint (fun _ => 14) 0 20 : Int) + sampleFighter.attack_bonus) →
     ¬ (sampleGoblin.get_ac ≤
          (randint (fun _ => 14) 0 20 : Int) + sampleFighter.attack_bonus) →
      sampleFighter.attack sampleGoblin [] 3 (1, 10) 0 false (fun _ => 14) =
        { used := 1, hit := false,
          target := { sampleGoblin with off_guard := false },
          msgs := [LogMsg.rollToHit, LogMsg.missMsg],
          effects := [missEffect], waveCheck := false }) :=
  c1_attack_pipeline sampleFighter sampleGoblin [] 3 1 10 0 false (fun _ => 14)
    _ rfl sampleGoblin (by decide) (by decide) (by decide) (by decide)
    (by decide)

/-! ### C7 -/

/-- C7 (amended): the three precondition gates of `Character.attack` fire in
the order action budget, target alive, range; each aborts with `(0, false)`
and no other state change.  The budget and range failures append one log
message; the dead-target failure appends none. -/
theorem c7_precondition_gates (c t : Character) (others : List Character)
    (al : Int) (dice : Nat × Nat) (bd : Int) (sn : Bool) (rng : Nat → Nat) :
    (al < 1 →
      c.attack t others al dice bd sn rng =
        { used := 0, hit := false, target := t,
          msgs := [LogMsg.notEnoughActions], effects := [], waveCheck := false }) ∧
    (1 ≤ al → t.is_alive = false →
      c.attack t others al dice bd sn rng =
        { used := 0, hit := false, target := t, msgs := [], effects := [],
          waveCheck := false }) ∧
    (1 ≤ al → t.is_alive = true → 1 < c.position.distance_to t.position →
      c.attack t others al dice bd sn rng =
        { used := 0, hit := false, target := t,
          msgs := [LogMsg.outOfRange], effects := [], waveCheck := false }) := by
  refine ⟨fun h => ?_, fun h1 h2 => ?_, fun h1 h2 h3 => ?_⟩
  · rw [Character.attack, if_pos h]
  · rw [Character.attack, if_neg (by omega), if_pos (by simp [h2])]
  · rw [Character.attack, if_neg (by omega), if_neg (by simp [h2]), if_pos h3]

/-- C7 witness: the dead-target gate applied to the sample Fighter attacking
a Goblin at 0 hp with a full budget. -/
theorem c7_precondition_gates_witness :
    (1 ≤ (3 : Int)) ∧
    (sampleFighter.attack { sampleGoblin with hp := 0 } [] 3 (1, 10) 0 false
        (fun _ => 0) =
      { used := 0, hit := false, target := { sampleGoblin with hp := 0 },
        msgs := [], effects := [], waveCheck := false }) :=
  ⟨by decide,
    (c7_precondition_gates sampleFighter { sampleGoblin with hp := 0 } [] 3
        (1, 10) 0 false (fun _ => 0)).2.1 (by decide) (by decide)⟩

/-- C7 counterexample: a precondition-failing call (dead adjacent target,
full budget) returns `(0, false)` but appends no log message at all,
refuting the claim that every one of the three precondition failures leaves
an appended log message behind. -/
theorem c7_counterexample :
    (sampleFighter.attack { sampleGoblin with hp := 0 } [] 3 (1, 10) 0 false
        (fun _ => 0)).used = 0 ∧
    (sampleFighter.attack { sampleGoblin with hp := 0 } [] 3 (1, 10) 0 false
        (fun _ => 0)).hit = false ∧
    (sampleFighter.attack { sampleGoblin with hp := 0 } [] 3 (1, 10) 0 false
        (fun _ => 0)).msgs = [] := by
  refine ⟨?_, ?_, ?_⟩ <;> decide

/-! ### C5 -/

theorem applyHit_waveCheck (c t : Character) (diceSum : Nat) (bd : Int)
    (sn : Bool) (rng : Nat → Nat) (k : Nat) (m : List LogMsg) (f : List Effect) :
    (c.applyHit t diceSum bd sn rng k m f).waveCheck =
      !(c.applyHit t diceSum bd sn rng k m f).target.is_alive := rfl

theorem attackResolve_hit_waveCheck (c t : Character) (others : List Character)
    (dice : Nat × Nat) (bd : Int) (sn : Bool) (rng : Nat → Nat) (k : Nat)
    (m : List LogMsg) (f : List Effect) :
    (c.attackResolve t others dice bd sn rng k m f).hit = true →
    (c.attackResolve t others dice bd sn rng k m f).waveCheck =
      !(c.attackResolve t others dice bd sn rng k m f).target.is_alive := by
  unfold Character.attackResolve
  by_cases hf : c.is_flanking t others
  all_goals simp only [hf, if_true, if_false, Bool.false_eq_true]
  all_goals split
  · intro h
    simp at h
  · split
    · intro _
      exact applyHit_waveCheck _ _ _ _ _ _ _ _ _
    · split
      · intro _
        exact applyHit_waveCheck _ _ _ _ _ _ _ _ _
      · intro h
        simp at h
  · intro h
    simp at h
  · split
    · intro _
      exact applyHit_waveCheck _ _ _ _ _ _ _ _ _
    · split
      · intro _
        exact applyHit_waveCheck _ _ _ _ _ _ _ _ _
      · intro h
        simp at h

theorem attack_hit_waveCheck (c t : Character) (others : List Character)
    (al : Int) (dice : Nat × Nat) (bd : Int) (sn : Bool) (rng : Nat → Nat) :
    (c.attack t others al dice bd sn rng).hit = true →
    (c.attack t others al dice bd sn rng).waveCheck =
      !(c.attack t others al dice bd sn rng).target.is_alive := by
  unfold Character.attack
  split
  · intro h
    simp at h
  · split
    · intro h
      simp at h
    · split
      · intro h
        simp at h
      · split
        · dsimp only
          split
          · intro h
            simp at h
          · exact attackResolve_hit_waveCheck _ _ _ _ _ _ _ _ _ _
        · exact attackResolve_hit_waveCheck _ _ _ _ _ _ _ _ _ _

/-- C5 (amended): `check_wave_complete()` returns true iff the game is in the
combat state and no enemy in `current_enemies` is alive; and on a hit the
attack pipeline triggers the wave-completion check in the same resolution
exactly when the target dropped. -/
theorem c5_wave_completion (g : Game) (c t : Character)
    (others : List Character) (al : Int) (dice : Nat × Nat) (bd : Int)
    (sn : Bool) (rng : Nat → Nat) :
    (g.check_wave_complete.1 = true ↔
      (g.state = GameMode.combat ∧ ∀ e ∈ g.current_enemies, e.is_alive = false)) ∧
    ((c.attack t others al dice bd sn rng).hit = true →
      (c.attack t others al dice bd sn rng).waveCheck =
        !(c.attack t others al dice bd sn rng).target.is_alive) := by
  refine ⟨?_, attack_hit_waveCheck c t others al dice bd sn rng⟩
  unfold Game.check_wave_complete
  by_cases hs : g.state = GameMode.combat
  · rw [if_neg (by simp [hs])]
    split
    · rename_i hemp
      simp only [List.isEmpty_iff, List.filter_eq_nil_iff] at hemp
      simp only [true_iff, eq_self_iff_true]
      exact ⟨by simp [hs], fun e he => by simpa using hemp e he⟩
    · rename_i hemp
      simp only [List.isEmpty_iff, List.filter_eq_nil_iff] at hemp
      constructor
      · intro h
        cases h
      · rintro ⟨-, hall⟩
        exact absurd (fun e he => by simp [hall e he]) hemp
  · rw [if_pos (by simp [hs])]
    constructor
    · intro h
      cases h
    · rintro ⟨h, -⟩
      exact absurd h hs

/-- C5 witness: the sample Fighter strikes a 1-hp Goblin with the stream at
14 (roll 15, total 24 ≥ AC 15): the hit lands, the Goblin drops, and the
wave-completion check fires within the same attack resolution. -/
theorem c5_wave_completion_witness :
    (sampleFighter.attack { sampleGoblin with hp := 1 } [] 3 (1, 10) 0 false
        (fun _ => 14)).hit = true ∧
    (sampleFighter.attack { sampleGoblin with hp := 1 } [] 3 (1, 10) 0 false
        (fun _ => 14)).waveCheck =
      !(sampleFighter.attack { sampleGoblin with hp := 1 } [] 3 (1, 10) 0
          false (fun _ => 14)).target.is_alive :=
  ⟨by decide,
    (c5_wave_completion upgradeGameDeadWave sampleFighter
      { sampleGoblin with hp := 1 } [] 3 (1, 10) 0 false (fun _ => 14)).2
      (by decide)⟩

/-- C5 counterexample: on the upgrade screen with the dead wave still in
`current_enemies`, every enemy has 0 hp yet `check_wave_complete()` returns
false (the method only reports true during combat), refuting the claimed
unconditional iff. -/
theorem c5_counterexample :
    upgradeGameDeadWave.check_wave_complete.1 = false ∧
    ∀ e ∈ upgradeGameDeadWave.current_enemies, e.is_alive = false := by
  constructor
  · decide
  · decide

/-! ### C6 -/

/-- C6 (amended): in `pf2e_grid_combat.py`, `can_move_to` holds iff the
destination is in bounds, unoccupied by any other *living* character, and
within `speed` feet at 5 ft per Chebyshev square; `move_to` mutates the
position exactly when `can_move_to` holds and otherwise changes nothing and
returns false; a speed-25 character can never move more than 5 squares.  In
the duplicated `src/entities/base_character.py`, occupancy instead counts
every other character, dead or alive. -/
theorem c6_movement (c : Character) (p : GridPosition) (others : List Character) :
    (c.can_move_to p others = true ↔
      ((0 ≤ p.x ∧ p.x < GRID_COLS ∧ 0 ≤ p.y ∧ p.y < GRID_ROWS) ∧
       (∀ ch ∈ others, ¬ (ch.position = p ∧ ch.is_alive = true)) ∧
       (c.position.distance_to p : Int) * 5 ≤ c.speed)) ∧
    (c.can_move_to p others = true →
      c.move_to p others = ({ c with position := p }, true)) ∧
    (c.can_move_to p others = false →
      c.move_to p others = (c, false)) ∧
    (c.speed = 25 → 5 < c.position.distance_to p →
      c.move_to p others = (c, false)) ∧
    (BC.can_move_to c p others = true ↔
      ((0 ≤ p.x ∧ p.x < BC.GRID_COLS ∧ 0 ≤ p.y ∧ p.y < BC.GRID_ROWS) ∧
       (∀ ch ∈ others, ch.position ≠ p) ∧
       (c.position.distance_to p : Int) * 5 ≤ c.speed)) := by
  have hmain : c.can_move_to p others = true ↔
      ((0 ≤ p.x ∧ p.x < GRID_COLS ∧ 0 ≤ p.y ∧ p.y < GRID_ROWS) ∧
       (∀ ch ∈ others, ¬ (ch.position = p ∧ ch.is_alive = true)) ∧
       (c.position.distance_to p : Int) * 5 ≤ c.speed) := by
    unfold Character.can_move_to
    by_cases hb : (0 ≤ p.x ∧ p.x < GRID_COLS ∧ 0 ≤ p.y ∧ p.y < GRID_ROWS)
    · rw [if_neg (not_not_intro hb)]
      by_cases hocc :
          (others.any fun ch => decide (ch.position = p ∧ ch.is_alive = true)) = true
      · rw [if_pos hocc]
        simp only [Bool.false_eq_true, false_iff]
        rw [List.any_eq_true] at hocc
        obtain ⟨ch, hch, hcond⟩ := hocc
        simp only [decide_eq_true_eq] at hcond
        intro h
        exact h.2.1 ch hch hcond
      · rw [if_neg hocc, decide_eq_true_eq]
        constructor
        · intro h
          refine ⟨hb, ?_, h⟩
          intro ch hch hcontra
          exact hocc (List.any_eq_true.mpr ⟨ch, hch, by simpa using hcontra⟩)
        · intro h
          exact h.2.2
    · rw [if_pos hb]
      simp only [Bool.false_eq_true, false_iff]
      intro h
      exact hb h.1
  refine ⟨hmain, ?_, ?_, ?_, ?_⟩
  · intro h
    unfold Character.move_to
    rw [if_pos h]
  · intro h
    unfold Character.move_to
    rw [if_neg (by simp [h])]
  · intro hsp hdist
    have hfalse : c.can_move_to p others = false := by
      unfold Character.can_move_to
      by_cases hb : (0 ≤ p.x ∧ p.x < GRID_COLS ∧ 0 ≤ p.y ∧ p.y < GRID_ROWS)
      · rw [if_neg (not_not_intro hb)]
        by_cases hocc :
            (others.any fun ch => decide (ch.position = p ∧ ch.is_alive = true)) = true
        · rw [if_pos hocc]
        · rw [if_neg hocc, decide_eq_false_iff_not]
          intro hle
          rw [hsp] at hle
          omega
      · rw [if_pos hb]
    unfold Character.move_to
    rw [if_neg (by simp [hfalse])]
  · unfold BC.can_move_to
    by_cases hb : (0 ≤ p.x ∧ p.x < BC.GRID_COLS ∧ 0 ≤ p.y ∧ p.y < BC.GRID_ROWS)
    · rw [if_neg (not_not_intro hb)]
      by_cases hocc : (others.any fun ch => decide (ch.position = p)) = true
      · rw [if_pos hocc]
        simp only [Bool.false_eq_true, false_iff]
        rw [List.any_eq_true] at hocc
        obtain ⟨ch, hch, hcond⟩ := hocc
        simp only [decide_eq_true_eq] at hcond
        intro h
        exact h.2.1 ch hch hcond
      · rw [if_neg hocc, decide_eq_true_eq]
        constructor
        · intro h
          refine ⟨hb, ?_, h⟩
          intro ch hch hcontra
          exact hocc (List.any_eq_true.mpr ⟨ch, hch, by simpa using hcontra⟩)
        · intro h
          exact h.2.2
    · rw [if_pos hb]
      simp only [Bool.false_eq_true, false_iff]
      intro h
      exact hb h.1

/-- C6 witness: the sample Rogue at (2,2) with speed 30 moves onto (3,2)
after the Goblin there has died — legal in the main module. -/
theorem c6_movement_witness :
    sampleRogue.can_move_to ⟨3, 2⟩ [{ sampleGoblin with hp := 0 }] = true ∧
    sampleRogue.move_to ⟨3, 2⟩ [{ sampleGoblin with hp := 0 }] =
      ({ sampleRogue with position := ⟨3, 2⟩ }, true) :=
  ⟨by decide,
    (c6_movement sampleRogue ⟨3, 2⟩ [{ sampleGoblin with hp := 0 }]).2.1
      (by decide)⟩

/-- C6 counterexample: in the duplicated module, the very same move is
blocked — `can_move_to` is false although the square is in bounds, occupied
only by a dead Goblin (no living occupant), and within speed — refuting the
claim for `src/entities/base_character.py`. -/
theorem c6_counterexample :
    BC.can_move_to sampleRogue ⟨3, 2⟩ [{ sampleGoblin with hp := 0 }] = false ∧
    (0 ≤ (3 : Int) ∧ (3 : Int) < BC.GRID_COLS ∧
      0 ≤ (2 : Int) ∧ (2 : Int) < BC.GRID_ROWS) ∧
    (∀ ch ∈ [{ sampleGoblin with hp := 0 }],
      ¬ (ch.position = (⟨3, 2⟩ : GridPosition) ∧ ch.is_alive = true)) ∧
    (sampleRogue.position.distance_to ⟨3, 2⟩ : Int) * 5 ≤ sampleRogue.speed := by
  refine ⟨?_, ?_, ?_, ?_⟩ <;> decide

/-! ### C9 -/

theorem applyHit_sneak_mem (c t : Character) (diceSum : Nat) (bd : Int)
    (sn : Bool) (rng : Nat → Nat) (k : Nat) (m : List LogMsg) (f : List Effect)
    (hm : LogMsg.sneakAttackMsg ∉ m) :
    LogMsg.sneakAttackMsg ∈ (c.applyHit t diceSum bd sn rng k m f).msgs ↔
      (sn && decide (c.archetype = Archetype.rogue)) = true := by
  unfold Character.applyHit Character.take_damage
  by_cases hs : (sn && decide (c.archetype = Archetype.rogue)) = true
  · by_cases ha : (t.setHp (max 0 (t.hp - ((diceSum : Int) +
        (if (sn && decide (c.archetype = Archetype.rogue)) = true
          then (randint rng k 6 : Int) else 0) + bd + c.bonus_damage)))).alive = true
    all_goals simp [hs, ha, hm]
  · by_cases ha : (t.setHp (max 0 (t.hp - ((diceSum : Int) +
        (if (sn && decide (c.archetype = Archetype.rogue)) = true
          then (randint rng k 6 : Int) else 0) + bd + c.bonus_damage)))).alive = true
    all_goals simp [hs, ha, hm]

theorem attackResolve_sneak_mem (c t : Character) (others : List Character)
    (dice : Nat × Nat) (bd : Int) (sn : Bool) (rng : Nat → Nat) (k : Nat)
    (m : List LogMsg) (f : List Effect)
    (hm : LogMsg.sneakAttackMsg ∉ m) :
    LogMsg.sneakAttackMsg ∈ (c.attackResolve t others dice bd sn rng k m f).msgs ↔
      ((c.attackResolve t others dice bd sn rng k m f).hit = true ∧
        (sn && decide (c.archetype = Archetype.rogue)) = true) := by
  unfold Character.attackResolve
  by_cases hf : c.is_flanking t others
  all_goals simp only [hf, if_true, if_false, Bool.false_eq_true]
  all_goals split
  · simp [hm]
  · split
    · rw [applyHit_sneak_mem _ _ _ _ _ _ _ _ _ (by simp [hm])]
      simp [Character.applyHit]
    · split
      · rw [applyHit_sneak_mem _ _ _ _ _ _ _ _ _ (by simp [hm])]
        simp [Character.applyHit]
      · simp [hm]
  · simp [hm]
  · split
    · rw [applyHit_sneak_mem _ _ _ _ _ _ _ _ _ (by simp [hm])]
      simp [Character.applyHit]
    · split
      · rw [applyHit_sneak_mem _ _ _ _ _ _ _ _ _ (by simp [hm])]
        simp [Character.applyHit]
      · simp [hm]

/-- C9 (amended): in the main module's pipeline the sneak-attack d6 (and its
log line) occurs exactly on a hit with the `sneak_attack` flag set and a
Rogue attacker; in the duplicated `src/entities/base_character.py` pipeline
it instead occurs on any hit where the flag is set *or* the target is
off-guard (including flank-induced), for every archetype. -/
theorem c9_sneak_attack (c t : Character) (others : List Character) (al : Int)
    (dice : Nat × Nat) (bd : Int) (sn : Bool) (rng : Nat → Nat) :
    (LogMsg.sneakAttackMsg ∈ (c.attack t others al dice bd sn rng).msgs ↔
      ((c.attack t others al dice bd sn rng).hit = true ∧ sn = true ∧
        c.archetype = Archetype.rogue)) ∧
    (LogMsg.sneakAttackMsg ∈ (BC.attack c t others al dice bd sn rng).msgs ↔
      ((BC.attack c t others al dice bd sn rng).hit = true ∧
        (sn = true ∨ c.is_flanking t others = true ∨ t.off_guard = true))) := by
  constructor
  · have hmain : LogMsg.sneakAttackMsg ∈ (c.attack t others al dice bd sn rng).msgs ↔
        ((c.attack t others al dice bd sn rng).hit = true ∧
          (sn && decide (c.archetype = Archetype.rogue)) = true) := by
      unfold Character.attack
      split
      · simp
      · split
        · simp
        · split
          · simp
          · split
            · dsimp only
              split
              · simp
              · exact attackResolve_sneak_mem _ _ _ _ _ _ _ _ _ _ (by simp)
            · exact attackResolve_sneak_mem _ _ _ _ _ _ _ _ _ _ (by simp)
    rw [hmain]
    simp only [Bool.and_eq_true, decide_eq_true_eq, and_assoc]
  · unfold BC.attack
    split
    · simp
    · split
      · simp
      · split
        · simp
        · dsimp only
          by_cases hf : c.is_flanking t others
          all_goals simp only [hf, if_true, if_false, Bool.false_eq_true]
          all_goals split
          · simp
          · split
            · rw [BC.applyHit]
              by_cases hs : (sn || true) = true
              · by_cases ha : True
                all_goals simp [hs, hf, BC.take_damage]
              · simp at hs
            · split
              · rw [BC.applyHit]
                simp [hf, BC.take_damage]
              · simp [hf]
          · simp [hf]
          · split
            · rw [BC.applyHit]
              simp only [hf, if_false, Bool.false_eq_true]
              by_cases hs : sn = true ∨ t.off_guard = true
              all_goals simp [hs, BC.take_damage]
            · split
              · rw [BC.applyHit]
                simp only [hf, if_false, Bool.false_eq_true]
                by_cases hs : sn = true ∨ t.off_guard = true
                all_goals simp [hs, BC.take_damage]
              · simp [hf]

/-- C9 counterexample: in the duplicated module a *Fighter* with the
`sneak_attack` flag set lands a hit (stream 13: roll 14, total 23 vs AC 15)
and receives the extra sneak-attack d6, refuting the claim that only Rogues
ever get it. -/
theorem c9_counterexample :
    LogMsg.sneakAttackMsg ∈
      (BC.attack sampleFighter sampleGoblin [] 3 (1, 10) 0 true
        (fun _ => 13)).msgs ∧
    sampleFighter.archetype ≠ Archetype.rogue := by
  constructor
  · decide
  · decide

/-! ### C3 -/

theorem flankGeom_iff (my t a : GridPosition) :
    flankGeom my t a = true ↔
      ((my.y = t.y ∧ t.y = a.y ∧
        ((my.x < t.x ∧ t.x < a.x) ∨ (a.x < t.x ∧ t.x < my.x))) ∨
       (my.x = t.x ∧ t.x = a.x ∧
        ((my.y < t.y ∧ t.y < a.y) ∨ (a.y < t.y ∧ t.y < my.y))) ∨
       ((my.x - a.x).natAbs = 2 ∧ (my.y - a.y).natAbs = 2 ∧
        my.x + a.x = 2 * t.x ∧ my.y + a.y = 2 * t.y)) := by
  unfold flankGeom
  by_cases h1 : my.y = t.y ∧ t.y = a.y
  · rw [if_pos h1, decide_eq_true_eq]
    constructor
    · intro h
      exact Or.inl ⟨h1.1, h1.2, h⟩
    · rintro (⟨-, -, h⟩ | ⟨hx1, hx2, h⟩ | ⟨hdx, hdy, -, -⟩)
      · exact h
      · omega
      · omega
  · rw [if_neg h1]
    by_cases h2 : my.x = t.x ∧ t.x = a.x
    · rw [if_pos h2, decide_eq_true_eq]
      constructor
      · intro h
        exact Or.inr (Or.inl ⟨h2.1, h2.2, h⟩)
      · rintro (⟨hy1, hy2, -⟩ | ⟨-, -, h⟩ | ⟨hdx, hdy, -, -⟩)
        · exact absurd ⟨hy1, hy2⟩ h1
        · exact h
        · omega
    · rw [if_neg h2]
      by_cases h3 : (my.x - a.x).natAbs = 2 ∧ (my.y - a.y).natAbs = 2
      · rw [if_pos h3, decide_eq_true_eq]
        have key : ∀ s u : Int, (∃ k : Int, s = 2 * k) →
            (u = Int.fdiv s 2 ↔ s = 2 * u) := by
          rintro s u ⟨k, rfl⟩
          rw [Int.mul_fdiv_cancel_left _ (by norm_num)]
          omega
        have px : ∃ k : Int, my.x + a.x = 2 * k := by
          obtain h | h := Int.natAbs_eq_iff.mp h3.1
          · exact ⟨a.x + 1, by omega⟩
          · exact ⟨a.x - 1, by omega⟩
        have py : ∃ k : Int, my.y + a.y = 2 * k := by
          obtain h | h := Int.natAbs_eq_iff.mp h3.2
          · exact ⟨a.y + 1, by omega⟩
          · exact ⟨a.y - 1, by omega⟩
        constructor
        · rintro ⟨htx, hty⟩
          exact Or.inr (Or.inr ⟨h3.1, h3.2, (key _ _ px).mp htx, (key _ _ py).mp hty⟩)
        · rintro (⟨hy1, hy2, -⟩ | ⟨hx1, hx2, -⟩ | ⟨-, -, hsx, hsy⟩)
          · exact absurd ⟨hy1, hy2⟩ h1
          · exact absurd ⟨hx1, hx2⟩ h2
          · exact ⟨(key _ _ px).mpr hsx, (key _ _ py).mpr hsy⟩
      · rw [if_neg h3]
        simp only [Bool.false_eq_true, false_iff]
        rintro (⟨hy1, hy2, -⟩ | ⟨hx1, hx2, -⟩ | ⟨hdx, hdy, -, -⟩)
        · exact h1 ⟨hy1, hy2⟩
        · exact h2 ⟨hx1, hx2⟩
        · exact h3 ⟨hdx, hdy⟩

/-- C3 (amended): `is_flanking(target)` is true iff the target is alive and
some living same-side ally is adjacent to the target and either shares a row
with the target's x strictly between attacker's and ally's, or shares a
column with the target's y strictly between, or sits diagonally with the
attacker (offsets of exactly 2 in both coordinates) with the target as their
exact midpoint.  In the row and column cases the target need only lie
strictly between — it need not be the midpoint, and the attacker need not be
adjacent. -/
theorem c3_flanking_characterization (c target : Character)
    (others : List Character) :
    c.is_flanking target others = true ↔
      (target.is_alive = true ∧ ∃ ally ∈ others,
        ally.is_alive = true ∧ ally.is_enemy = c.is_enemy ∧
        ally.position.distance_to target.position ≤ 1 ∧
        ((c.position.y = target.position.y ∧
          target.position.y = ally.position.y ∧
          ((c.position.x < target.position.x ∧
            target.position.x < ally.position.x) ∨
           (ally.position.x < target.position.x ∧
            target.position.x < c.position.x))) ∨
         (c.position.x = target.position.x ∧
          target.position.x = ally.position.x ∧
          ((c.position.y < target.position.y ∧
            target.position.y < ally.position.y) ∨
           (ally.position.y < target.position.y ∧
            target.position.y < c.position.y))) ∨
         ((c.position.x - ally.position.x).natAbs = 2 ∧
          (c.position.y - ally.position.y).natAbs = 2 ∧
          c.position.x + ally.position.x = 2 * target.position.x ∧
          c.position.y + ally.position.y = 2 * target.position.y))) := by
  unfold Character.is_flanking
  by_cases ht : target.is_alive = true
  · rw [if_neg (by simp [ht]), List.any_eq_true]
    constructor
    · rintro ⟨ally, hmem, hcond⟩
      rw [List.mem_filter] at hmem
      simp only [decide_eq_true_eq] at hmem hcond
      exact ⟨ht, ally, hmem.1, hmem.2.1, hmem.2.2, hcond.1,
        (flankGeom_iff _ _ _).mp hcond.2⟩
    · rintro ⟨-, ally, hmem, halive, hside, hadj, hgeom⟩
      refine ⟨ally, ?_, ?_⟩
      · rw [List.mem_filter]
        simp only [decide_eq_true_eq]
        exact ⟨hmem, halive, hside⟩
      · simp only [decide_eq_true_eq]
        exact ⟨hadj, (flankGeom_iff _ _ _).mpr hgeom⟩
  · rw [if_pos ht]
    simp only [Bool.false_eq_true, false_iff]
    intro h
    exact ht h.1

/-- C3 counterexample: attacker at (0,2), living target at (2,2), living
same-side ally at (3,2).  The code reports flanking (the target's x lies
strictly between 0 and 3 on the shared row) although the target is not the
midpoint of attacker and ally, so the spec's midpoint rule says false. -/
theorem c3_counterexample :
    Character.is_flanking { sampleFighter with position := ⟨0, 2⟩ }
      { sampleGoblin with position := ⟨2, 2⟩ }
      [{ sampleRogue with position := ⟨3, 2⟩ }] = true ∧
    spec_is_flanking { sampleFighter with position := ⟨0, 2⟩ }
      { sampleGoblin with position := ⟨2, 2⟩ }
      [{ sampleRogue with position := ⟨3, 2⟩ }] = false := by
  constructor
  · decide
  · decide

end PF2E
